import Mathlib

set_option maxRecDepth 8000

/-!
Shallow embedding of `radio-kt0913.c`, the KT0913 AM/FM receiver driver.

The device is modelled as a register file (`Nat → Nat`, 16-bit values)
together with the driver's in-memory band state.  Every register access the
driver issues is recorded in an operation trace, and a `Transport` oracle
decides, per operation index, whether the bus transaction succeeds or fails
with an errno.  The regmap primitives (`regmap_read`, `regmap_write`,
`regmap_update_bits`, `regmap_multi_reg_write`) follow the kernel regmap
contract for volatile registers: reads always hit the bus, and
`regmap_update_bits` skips the bus write when the masked update leaves the
value unchanged.  Driver functions keep their C names.
-/

namespace KT0913

/-! Register addresses (from the C `#define` table). -/

def KT0913_REG_SEEK : Nat := 0x02
def KT0913_REG_TUNE : Nat := 0x03
def KT0913_REG_VOLUME : Nat := 0x04
def KT0913_REG_DSPCFGA : Nat := 0x05
def KT0913_REG_LOCFGA : Nat := 0x0A
def KT0913_REG_LOCFGC : Nat := 0x0C
def KT0913_REG_RXCFG : Nat := 0x0F
def KT0913_REG_STATUSA : Nat := 0x12
def KT0913_REG_AMSYSCFG : Nat := 0x16
def KT0913_REG_AMCHAN : Nat := 0x17
def KT0913_REG_GPIOCFG : Nat := 0x1D
def KT0913_REG_AMDSP : Nat := 0x22
def KT0913_REG_AMSTATUSA : Nat := 0x24
def KT0913_REG_SOFTMUTE : Nat := 0x2E
def KT0913_REG_AMCFG : Nat := 0x33

/-! Register field masks, values and shift counts. -/

def KT0913_TUNE_FMTUNE_ON : Nat := 0x8000
def KT0913_TUNE_FMCHAN_MASK : Nat := 0x0FFF

def KT0913_VOLUME_DMUTE_MASK : Nat := 0x2000
def KT0913_VOLUME_DMUTE_ON : Nat := 0x0000
def KT0913_VOLUME_DMUTE_OFF : Nat := 0x2000
def KT0913_VOLUME_DE_MASK : Nat := 0x0800
def KT0913_VOLUME_DE_75US : Nat := 0x0000
def KT0913_VOLUME_DE_50US : Nat := 0x0800
def KT0913_VOLUME_POP_MASK : Nat := 0x30
def KT0913_VOLUME_POP_SHIFT : Nat := 4

def KT0913_LOCFG_CAMPUSBAND_EN_MASK : Nat := 0x0008
def KT0913_LOCFG_CAMPUSBAND_EN_ON : Nat := 0x0008

def KT0913_RXCFGA_VOLUME_MASK : Nat := 0x001F

def KT0913_STATUSA_FMRSSI_MASK : Nat := 0xF8
def KT0913_STATUSA_FMRSSI_SHIFT : Nat := 3

def KT0913_AMCHAN_AMTUNE_ON : Nat := 0x8000
def KT0913_AMCHAN_AMCHAN_MASK : Nat := 0x7FF

def KT0913_AMSYSCFG_AM_FM_MASK : Nat := 0x8000
def KT0913_AMSYSCFG_AM_FM_AM : Nat := 0x8000
def KT0913_AMSYSCFG_AM_FM_FM : Nat := 0x0000
def KT0913_AMSYSCFG_REFCLK_MASK : Nat := 0x0F00
def KT0913_AMSYSCFG_REFCLK_SHIFT : Nat := 8
def KT0913_AMSYSCFG_AU_GAIN_MASK : Nat := 0x00C0
def KT0913_AMSYSCFG_AU_GAIN_6DB : Nat := 0x0040
def KT0913_AMSYSCFG_AU_GAIN_3DB : Nat := 0x0000
def KT0913_AMSYSCFG_AU_GAIN_0DB : Nat := 0x00C0
def KT0913_AMSYSCFG_AU_GAIN_MIN_3DB : Nat := 0x0080

def KT0913_AMSTATUSA_AMRSSI_MASK : Nat := 0x1F00
def KT0913_AMSTATUSA_AMRSSI_SHIFT : Nat := 8

/-! Frequency constants. -/

def V4L2_KHZ_FREQ_MUL : Nat := 16
def KT0913_FMCHAN_MUL : Nat := 50
def KT0913_FM_RANGE_LOW_NO_CAMPUS : Nat := 64000
def KT0913_FM_RANGE_LOW_CAMPUS : Nat := 32000
def KT0913_FM_RANGE_HIGH : Nat := 110000
def KT0913_AM_RANGE_LOW : Nat := 500
def KT0913_AM_RANGE_HIGH : Nat := 1710

/-! External (v4l2) constants consumed by the driver. -/

def EINVAL : Int := 22
def V4L2_TUNER_RADIO : Nat := 1
def V4L2_CID_AUDIO_VOLUME : Nat := 0x00980905
def V4L2_CID_AUDIO_MUTE : Nat := 0x00980909
def V4L2_CID_GAIN : Nat := 0x00980913
def V4L2_CID_TUNE_DEEMPHASIS : Nat := 0x00A10901
def V4L2_DEEMPHASIS_50_uS : Int := 1
def V4L2_DEEMPHASIS_75_uS : Int := 2

/-! Bands: `enum { BAND_FM, BAND_FM_CAMUS, BAND_AM }` and the
`kt0913_bands` descriptor table (rangelow/rangehigh in v4l2 units). -/

def BAND_FM : Nat := 0
def BAND_FM_CAMUS : Nat := 1
def BAND_AM : Nat := 2

def kt0913_bands_rangelow (band : Nat) : Nat :=
  if band = BAND_AM then KT0913_AM_RANGE_LOW * V4L2_KHZ_FREQ_MUL
  else if band = BAND_FM_CAMUS then KT0913_FM_RANGE_LOW_CAMPUS * V4L2_KHZ_FREQ_MUL
  else KT0913_FM_RANGE_LOW_NO_CAMPUS * V4L2_KHZ_FREQ_MUL

def kt0913_bands_rangehigh (band : Nat) : Nat :=
  if band = BAND_AM then KT0913_AM_RANGE_HIGH * V4L2_KHZ_FREQ_MUL
  else KT0913_FM_RANGE_HIGH * V4L2_KHZ_FREQ_MUL

/-! Device model: register file, driver band state, and an operation trace. -/

/-- One bus-level register operation, as issued to the transport. -/
inductive RegOp where
  | rd (reg : Nat)
  | wr (reg : Nat) (val : Nat)
deriving DecidableEq

/-- Register a bus operation targets. -/
def RegOp.reg : RegOp → Nat
  | RegOp.rd r => r
  | RegOp.wr r _ => r

abbrev Errno := Int

instance {ε α : Type} [DecidableEq ε] [DecidableEq α] :
    DecidableEq (Except ε α) := fun x y =>
  match x, y with
  | Except.ok a, Except.ok b =>
      if h : a = b then isTrue (by rw [h])
      else isFalse (by simp [h])
  | Except.error e, Except.error f =>
      if h : e = f then isTrue (by rw [h])
      else isFalse (by simp [h])
  | Except.ok _, Except.error _ => isFalse (by simp)
  | Except.error _, Except.ok _ => isFalse (by simp)

/-- Transport oracle: for the n-th bus operation issued, `none` means the
transaction succeeds and `some e` means it fails with errno `e`. -/
abbrev Transport := Nat → Option Errno

/-- Device + driver state: 16-bit register file, the driver's in-memory
`radio->band`, the number of bus operations issued so far, and the trace of
every bus operation attempted (successful or not). -/
structure DevState where
  regs : Nat → Nat
  band : Nat
  idx : Nat
  trace : List RegOp

/-- Transport that always succeeds. -/
def transportOk : Transport := fun _ => none

/-- Transport whose n-th operation fails with errno `e`; all others succeed. -/
def failAt (n : Nat) (e : Errno) : Transport :=
  fun i => if i = n then some e else none

/-- All-zero register file, driver band state `BAND_FM` (kzalloc default). -/
def initialState : DevState := ⟨fun _ => 0, BAND_FM, 0, []⟩

/-! Regmap primitives (kernel regmap contract, all registers volatile). -/

/-- `regmap_read`: issues a bus read; on success returns the register value. -/
def regmap_read (tr : Transport) (σ : DevState) (reg : Nat) :
    Except Errno Nat × DevState :=
  let σ1 : DevState :=
    { σ with idx := σ.idx + 1, trace := σ.trace ++ [RegOp.rd reg] }
  match tr σ.idx with
  | some e => (Except.error e, σ1)
  | none => (Except.ok (σ.regs reg), σ1)

/-- `regmap_write`: issues a bus write of the low 16 bits of `val`; on
success the register file is updated, on failure it is left unchanged. -/
def regmap_write (tr : Transport) (σ : DevState) (reg val : Nat) :
    Except Errno Unit × DevState :=
  let v := val &&& 0xFFFF
  let σ1 : DevState :=
    { σ with idx := σ.idx + 1, trace := σ.trace ++ [RegOp.wr reg v] }
  match tr σ.idx with
  | some e => (Except.error e, σ1)
  | none =>
      (Except.ok (),
        { σ1 with regs := fun r => if r = reg then v else σ.regs r })

/-- `regmap_update_bits`: read-modify-write
`(orig & ~mask) | (val & mask)`, skipping the bus write when the value is
unchanged (kernel regmap change detection). -/
def regmap_update_bits (tr : Transport) (σ : DevState) (reg mask val : Nat) :
    Except Errno Unit × DevState :=
  match regmap_read tr σ reg with
  | (Except.error e, σ1) => (Except.error e, σ1)
  | (Except.ok orig, σ1) =>
      let tmp := (orig &&& (0xFFFF ^^^ mask)) ||| (val &&& mask)
      if tmp = orig then (Except.ok (), σ1)
      else regmap_write tr σ1 reg tmp

/-- `regmap_multi_reg_write`: applies the (addr, value) sequence in list
order, stopping at the first failing write. -/
def regmap_multi_reg_write (tr : Transport) (σ : DevState) :
    List (Nat × Nat) → Except Errno Unit × DevState
  | [] => (Except.ok (), σ)
  | (reg, val) :: rest =>
      match regmap_write tr σ reg val with
      | (Except.error e, σ1) => (Except.error e, σ1)
      | (Except.ok _, σ1) => regmap_multi_reg_write tr σ1 rest

/-! Frequency unit conversions (u32 arithmetic). -/

def khz_to_v4l2_freq (freq : Nat) : Nat :=
  (freq * V4L2_KHZ_FREQ_MUL) % 2 ^ 32

def v4l2_freq_to_khz (v4l2_freq : Nat) : Nat :=
  v4l2_freq / V4L2_KHZ_FREQ_MUL

/-! Driver helpers, one Lean definition per C function. -/

def __kt0913_get_fm_frequency (tr : Transport) (σ : DevState) :
    Except Errno Nat × DevState :=
  match regmap_read tr σ KT0913_REG_TUNE with
  | (Except.error e, σ1) => (Except.error e, σ1)
  | (Except.ok tune_reg, σ1) =>
      (Except.ok ((tune_reg &&& KT0913_TUNE_FMCHAN_MASK) * KT0913_FMCHAN_MUL),
        σ1)

def __kt0913_set_fm_frequency (tr : Transport) (σ : DevState)
    (frequency : Nat) : Except Errno Unit × DevState :=
  regmap_write tr σ KT0913_REG_TUNE
    (KT0913_TUNE_FMTUNE_ON ||| (frequency / KT0913_FMCHAN_MUL))

def __kt0913_set_mute (tr : Transport) (σ : DevState) (on_ : Int) :
    Except Errno Unit × DevState :=
  regmap_update_bits tr σ KT0913_REG_VOLUME KT0913_VOLUME_DMUTE_MASK
    (if on_ ≠ 0 then KT0913_VOLUME_DMUTE_ON else KT0913_VOLUME_DMUTE_OFF)

def __kt0913_set_deemphasis (tr : Transport) (σ : DevState) (deemp : Int) :
    Except Errno Unit × DevState :=
  if deemp = V4L2_DEEMPHASIS_75_uS then
    regmap_update_bits tr σ KT0913_REG_VOLUME KT0913_VOLUME_DE_MASK
      KT0913_VOLUME_DE_75US
  else if deemp = V4L2_DEEMPHASIS_50_uS then
    regmap_update_bits tr σ KT0913_REG_VOLUME KT0913_VOLUME_DE_MASK
      KT0913_VOLUME_DE_50US
  else (Except.error (-EINVAL), σ)

/-- Volume register-field mapping `(volume / 2) + 31` with C (truncating
toward zero) signed division; factored out of `__kt0913_set_volume`. -/
def kt0913_volume_field (volume : Int) : Int :=
  Int.tdiv volume 2 + 31

def __kt0913_set_volume (tr : Transport) (σ : DevState) (volume : Int) :
    Except Errno Unit × DevState :=
  regmap_update_bits tr σ KT0913_REG_RXCFG KT0913_RXCFGA_VOLUME_MASK
    ((kt0913_volume_field volume % 2 ^ 32).toNat)

def __kt0913_set_au_gain (tr : Transport) (σ : DevState) (gain : Int) :
    Except Errno Unit × DevState :=
  if gain = 6 then
    regmap_update_bits tr σ KT0913_REG_AMSYSCFG KT0913_AMSYSCFG_AU_GAIN_MASK
      KT0913_AMSYSCFG_AU_GAIN_6DB
  else if gain = 3 then
    regmap_update_bits tr σ KT0913_REG_AMSYSCFG KT0913_AMSYSCFG_AU_GAIN_MASK
      KT0913_AMSYSCFG_AU_GAIN_3DB
  else if gain = 0 then
    regmap_update_bits tr σ KT0913_REG_AMSYSCFG KT0913_AMSYSCFG_AU_GAIN_MASK
      KT0913_AMSYSCFG_AU_GAIN_0DB
  else if gain = -3 then
    regmap_update_bits tr σ KT0913_REG_AMSYSCFG KT0913_AMSYSCFG_AU_GAIN_MASK
      KT0913_AMSYSCFG_AU_GAIN_MIN_3DB
  else (Except.error (-EINVAL), σ)

def __kt0913_set_am_fm_band (tr : Transport) (σ : DevState) (band : Nat) :
    Except Errno Unit × DevState :=
  regmap_update_bits tr σ KT0913_REG_AMSYSCFG KT0913_AMSYSCFG_AM_FM_MASK
    (if band = BAND_AM then KT0913_AMSYSCFG_AM_FM_AM
     else KT0913_AMSYSCFG_AM_FM_FM)

def __kt0913_get_am_frequency (tr : Transport) (σ : DevState) :
    Except Errno Nat × DevState :=
  match regmap_read tr σ KT0913_REG_AMCHAN with
  | (Except.error e, σ1) => (Except.error e, σ1)
  | (Except.ok amchan_reg, σ1) =>
      (Except.ok (amchan_reg &&& KT0913_AMCHAN_AMCHAN_MASK), σ1)

def __kt0913_set_am_frequency (tr : Transport) (σ : DevState)
    (frequency : Nat) : Except Errno Unit × DevState :=
  regmap_write tr σ KT0913_REG_AMCHAN (KT0913_AMCHAN_AMTUNE_ON ||| frequency)

/-- Pure FM RSSI computation factored out of `__kt0913_get_fm_rssi`
(s32 arithmetic on the freshly read STATUSA value). -/
def kt0913_fm_rssi_of (statusa_reg : Nat) : Int :=
  Int.tdiv
    ((((statusa_reg &&& KT0913_STATUSA_FMRSSI_MASK) >>>
        KT0913_STATUSA_FMRSSI_SHIFT : Nat) : Int) * 65535)
    (((KT0913_STATUSA_FMRSSI_MASK >>> KT0913_STATUSA_FMRSSI_SHIFT : Nat) :
      Int))

def __kt0913_get_fm_rssi (tr : Transport) (σ : DevState) :
    Except Errno Int × DevState :=
  match regmap_read tr σ KT0913_REG_STATUSA with
  | (Except.error e, σ1) => (Except.error e, σ1)
  | (Except.ok statusa_reg, σ1) =>
      (Except.ok (kt0913_fm_rssi_of statusa_reg), σ1)

/-- Pure AM RSSI computation factored out of `__kt0913_get_am_rssi`. -/
def kt0913_am_rssi_of (amstatusa_reg : Nat) : Int :=
  Int.tdiv
    ((((amstatusa_reg &&& KT0913_AMSTATUSA_AMRSSI_MASK) >>>
        KT0913_AMSTATUSA_AMRSSI_SHIFT : Nat) : Int) * 65535)
    (((KT0913_AMSTATUSA_AMRSSI_MASK >>> KT0913_AMSTATUSA_AMRSSI_SHIFT :
        Nat) : Int))

def __kt0913_get_am_rssi (tr : Transport) (σ : DevState) :
    Except Errno Int × DevState :=
  match regmap_read tr σ KT0913_REG_AMSTATUSA with
  | (Except.error e, σ1) => (Except.error e, σ1)
  | (Except.ok amstatusa_reg, σ1) =>
      (Except.ok (kt0913_am_rssi_of amstatusa_reg), σ1)

/-! Initialization. -/

/-- The literal `kt0913_init_regs_to_defaults` table, in source order
(including the duplicated AMCFG entry present in the source). -/
def kt0913_init_regs_to_defaults : List (Nat × Nat) :=
  [(KT0913_REG_RXCFG, 0x881F),
   (KT0913_REG_SEEK, 0x000B),
   (KT0913_REG_DSPCFGA, 0x1000),
   (KT0913_REG_LOCFGA, 0x0100),
   (KT0913_REG_LOCFGC, 0x0024),
   (KT0913_REG_AMSYSCFG, 0x0002),
   (KT0913_REG_AMCHAN, 0x01F8),
   (KT0913_REG_GPIOCFG, 0x0000),
   (KT0913_REG_AMDSP, 0xAFC4),
   (KT0913_REG_SOFTMUTE, 0x0010),
   (KT0913_REG_AMCFG, 0x1401),
   (KT0913_REG_AMCFG, 0x4050),
   (KT0913_REG_TUNE, 0x86B8),
   (KT0913_REG_VOLUME, 0xE080)]

/-- `__kt0913_init`: defaults table, anti-pop level, reference clock,
optional campus-band enable, then mute on; aborts at the first failure. -/
def __kt0913_init (kt0913_use_campus_band : Bool)
    (audio_anti_pop refclock_val : Nat) (tr : Transport) (σ : DevState) :
    Except Errno Unit × DevState :=
  match regmap_multi_reg_write tr σ kt0913_init_regs_to_defaults with
  | (Except.error e, σ1) => (Except.error e, σ1)
  | (Except.ok _, σ1) =>
  match regmap_update_bits tr σ1 KT0913_REG_VOLUME KT0913_VOLUME_POP_MASK
      (audio_anti_pop <<< KT0913_VOLUME_POP_SHIFT) with
  | (Except.error e, σ2) => (Except.error e, σ2)
  | (Except.ok _, σ2) =>
  match regmap_update_bits tr σ2 KT0913_REG_AMSYSCFG
      KT0913_AMSYSCFG_REFCLK_MASK
      (refclock_val <<< KT0913_AMSYSCFG_REFCLK_SHIFT) with
  | (Except.error e, σ3) => (Except.error e, σ3)
  | (Except.ok _, σ3) =>
  match (if kt0913_use_campus_band then
          regmap_update_bits tr σ3 KT0913_REG_LOCFGC
            KT0913_LOCFG_CAMPUSBAND_EN_MASK KT0913_LOCFG_CAMPUSBAND_EN_ON
        else (Except.ok (), σ3)) with
  | (Except.error e, σ4) => (Except.error e, σ4)
  | (Except.ok _, σ4) => __kt0913_set_mute tr σ4 1

/-! The frequency ioctls. -/

def kt0913_ioctl_vidioc_g_frequency (tr : Transport) (σ : DevState)
    (tuner : Nat) : Except Errno Nat × DevState :=
  if tuner ≠ 0 then (Except.error (-EINVAL), σ)
  else
    match (if σ.band = BAND_AM then __kt0913_get_am_frequency tr σ
           else __kt0913_get_fm_frequency tr σ) with
    | (Except.error e, σ1) => (Except.error e, σ1)
    | (Except.ok khz, σ1) => (Except.ok (khz_to_v4l2_freq khz), σ1)

/-- Band classification of `kt0913_ioctl_vidioc_s_frequency` (the if/else
chain of lines 659-682, in source order): AM range first, then FM, then the
campus FM range guarded by `kt0913_use_campus_band`; `none` when no range
matches. -/
def kt0913_classify_band (kt0913_use_campus_band : Bool) (freq : Nat) :
    Option Nat :=
  if kt0913_bands_rangelow BAND_AM ≤ freq ∧
      freq ≤ kt0913_bands_rangehigh BAND_AM then
    some BAND_AM
  else if kt0913_bands_rangelow BAND_FM ≤ freq ∧
      freq ≤ kt0913_bands_rangehigh BAND_FM then
    some BAND_FM
  else if kt0913_use_campus_band ∧
      kt0913_bands_rangelow BAND_FM_CAMUS ≤ freq ∧
      freq ≤ kt0913_bands_rangehigh BAND_FM_CAMUS then
    some BAND_FM_CAMUS
  else none

def kt0913_ioctl_vidioc_s_frequency (kt0913_use_campus_band : Bool)
    (tr : Transport) (σ : DevState) (tuner typ freq : Nat) :
    Except Errno Unit × DevState :=
  if tuner ≠ 0 ∨ typ ≠ V4L2_TUNER_RADIO then (Except.error (-EINVAL), σ)
  else if freq = 0 then (Except.error (-EINVAL), σ)
  else
    match kt0913_classify_band kt0913_use_campus_band freq with
    | none => (Except.error (-EINVAL), σ)
    | some new_band =>
        match (if σ.band ≠ new_band then
                match __kt0913_set_am_fm_band tr σ new_band with
                | (Except.error e, σ1) => (Except.error e, σ1)
                | (Except.ok _, σ1) =>
                    (Except.ok (), { σ1 with band := new_band })
              else (Except.ok (), σ)) with
        | (Except.error e, σ1) => (Except.error e, σ1)
        | (Except.ok _, σ1) =>
            if σ1.band = BAND_AM then
              __kt0913_set_am_frequency tr σ1 (v4l2_freq_to_khz freq)
            else
              __kt0913_set_fm_frequency tr σ1 (v4l2_freq_to_khz freq)

/-! Control dispatch (`kt0913_s_ctrl`). -/

def kt0913_s_ctrl (tr : Transport) (σ : DevState) (id : Nat) (val : Int) :
    Except Errno Unit × DevState :=
  if id = V4L2_CID_AUDIO_MUTE then __kt0913_set_mute tr σ val
  else if id = V4L2_CID_AUDIO_VOLUME then __kt0913_set_volume tr σ val
  else if id = V4L2_CID_GAIN then __kt0913_set_au_gain tr σ val
  else if id = V4L2_CID_TUNE_DEEMPHASIS then __kt0913_set_deemphasis tr σ val
  else (Except.error (-EINVAL), σ)

/-! Trace predicates used by the temporal claims. -/

/-- Is this bus op a write of the AM/FM mode-config register? -/
def isModeWrite : RegOp → Bool
  | RegOp.wr r _ => decide (r = KT0913_REG_AMSYSCFG)
  | _ => false

/-- Is this bus op a write of a tune/channel register (TUNE or AMCHAN)? -/
def isChanWrite : RegOp → Bool
  | RegOp.wr r _ => decide (r = KT0913_REG_TUNE ∨ r = KT0913_REG_AMCHAN)
  | _ => false

/-- Bus trace of a fully successful `__kt0913_init` with campus band
enabled, anti-pop level 1 and reference clock 2: the 14 default-table
writes in table order, then the anti-pop read-modify-write of VOLUME, the
refclk read-modify-write of AMSYSCFG, the campus-band read-modify-write of
LOCFGC, and finally the mute-on read-modify-write of VOLUME. -/
def kt0913_init_expected_trace : List RegOp :=
  [RegOp.wr KT0913_REG_RXCFG 0x881F,
   RegOp.wr KT0913_REG_SEEK 0x000B,
   RegOp.wr KT0913_REG_DSPCFGA 0x1000,
   RegOp.wr KT0913_REG_LOCFGA 0x0100,
   RegOp.wr KT0913_REG_LOCFGC 0x0024,
   RegOp.wr KT0913_REG_AMSYSCFG 0x0002,
   RegOp.wr KT0913_REG_AMCHAN 0x01F8,
   RegOp.wr KT0913_REG_GPIOCFG 0x0000,
   RegOp.wr KT0913_REG_AMDSP 0xAFC4,
   RegOp.wr KT0913_REG_SOFTMUTE 0x0010,
   RegOp.wr KT0913_REG_AMCFG 0x1401,
   RegOp.wr KT0913_REG_AMCFG 0x4050,
   RegOp.wr KT0913_REG_TUNE 0x86B8,
   RegOp.wr KT0913_REG_VOLUME 0xE080,
   RegOp.rd KT0913_REG_VOLUME,
   RegOp.wr KT0913_REG_VOLUME 0xE090,
   RegOp.rd KT0913_REG_AMSYSCFG,
   RegOp.wr KT0913_REG_AMSYSCFG 0x0202,
   RegOp.rd KT0913_REG_LOCFGC,
   RegOp.wr KT0913_REG_LOCFGC 0x002C,
   RegOp.rd KT0913_REG_VOLUME,
   RegOp.wr KT0913_REG_VOLUME 0xC090]

/-! Arithmetic helper lemmas about the bit-level encodings. -/

theorem mask_shift_eq_mod (s w k : Nat) :
    (s &&& ((2 ^ w - 1) <<< k)) >>> k = (s >>> k) % 2 ^ w := by
  rw [← Nat.and_pow_two_sub_one_eq_mod]
  apply Nat.eq_of_testBit_eq
  intro i
  simp only [Nat.testBit_shiftRight, Nat.testBit_land, Nat.testBit_shiftLeft,
    Nat.testBit_two_pow_sub_one]
  have h1 : k ≤ k + i := Nat.le_add_right k i
  simp [h1, Nat.add_sub_cancel_left]

theorem lor_two_pow_and_mask (k w : Nat) (hw : w ≤ 15) (hk : k < 2 ^ w) :
    (2 ^ 15 ||| k) &&& (2 ^ w - 1) = k := by
  apply Nat.eq_of_testBit_eq
  intro i
  simp only [Nat.testBit_land, Nat.testBit_lor, Nat.testBit_two_pow,
    Nat.testBit_two_pow_sub_one]
  by_cases hi : i < w
  · have h15 : ¬(15 = i) := by omega
    simp [hi, h15]
  · have h2 : k < 2 ^ i :=
      lt_of_lt_of_le hk (Nat.pow_le_pow_right (by norm_num) (by omega))
    simp [hi, Nat.testBit_lt_two_pow h2]

theorem int_tdiv_natCast (m n : Nat) :
    Int.tdiv ((m : Nat) : Int) ((n : Nat) : Int) = ((m / n : Nat) : Int) :=
  rfl

theorem and_ffff_eq_of_lt (v : Nat) (hv : v < 2 ^ 16) : v &&& 0xFFFF = v := by
  have h : (0xFFFF : Nat) = 2 ^ 16 - 1 := by decide
  rw [h, Nat.and_pow_two_sub_one_eq_mod, Nat.mod_eq_of_lt hv]

theorem update_and_mask_top (x t : Nat) :
    ((x &&& (0xFFFF ^^^ 0x8000)) ||| (t &&& 0x8000)) &&& 0x8000 =
      t &&& 0x8000 := by
  have h : (0xFFFF ^^^ 0x8000 : Nat) = 2 ^ 15 - 1 := by decide
  have h2 : (0x8000 : Nat) = 2 ^ 15 := by decide
  rw [h, h2]
  apply Nat.eq_of_testBit_eq
  intro i
  simp only [Nat.testBit_land, Nat.testBit_lor, Nat.testBit_two_pow,
    Nat.testBit_two_pow_sub_one]
  by_cases hi : i = 15
  · subst hi; simp
  · simp [hi, Ne.symm hi]

theorem classify_band_cases (campus : Bool) (freq b : Nat)
    (hb : kt0913_classify_band campus freq = some b) :
    (b = BAND_AM ∧ 500 * 16 ≤ freq ∧ freq ≤ 1710 * 16) ∨
    ((b = BAND_FM ∨ b = BAND_FM_CAMUS) ∧
      32000 * 16 ≤ freq ∧ freq ≤ 110000 * 16) := by
  unfold kt0913_classify_band at hb
  split_ifs at hb with h1 h2 h3 <;>
    simp_all [kt0913_bands_rangelow, kt0913_bands_rangehigh, BAND_AM,
      BAND_FM, BAND_FM_CAMUS, KT0913_AM_RANGE_LOW, KT0913_AM_RANGE_HIGH,
      KT0913_FM_RANGE_LOW_NO_CAMPUS, KT0913_FM_RANGE_LOW_CAMPUS,
      KT0913_FM_RANGE_HIGH, V4L2_KHZ_FREQ_MUL]
  all_goals omega

theorem get_am_value (rest : Nat → Nat) (i : Nat) (t : List RegOp) (k : Nat)
    (hk : k < 2 ^ 11) :
    (kt0913_ioctl_vidioc_g_frequency transportOk
      ⟨fun r => if r = KT0913_REG_AMCHAN then
          (KT0913_AMCHAN_AMTUNE_ON ||| k) &&& 0xFFFF else rest r,
        BAND_AM, i, t⟩ 0).1 = Except.ok (k * 16) := by
  have hv : (KT0913_AMCHAN_AMTUNE_ON ||| k) < 2 ^ 16 := by
    have h1 : (KT0913_AMCHAN_AMTUNE_ON : Nat) = 2 ^ 15 := by decide
    rw [h1]
    exact Nat.or_lt_two_pow (by norm_num) (by omega)
  have hmask : (KT0913_AMCHAN_AMTUNE_ON ||| k) &&& KT0913_AMCHAN_AMCHAN_MASK
      = k := by
    have h1 : (KT0913_AMCHAN_AMTUNE_ON : Nat) = 2 ^ 15 := by decide
    have h2 : (KT0913_AMCHAN_AMCHAN_MASK : Nat) = 2 ^ 11 - 1 := by decide
    rw [h1, h2]
    exact lor_two_pow_and_mask _ 11 (by norm_num) hk
  simp only [kt0913_ioctl_vidioc_g_frequency, __kt0913_get_am_frequency,
    regmap_read, transportOk, khz_to_v4l2_freq, V4L2_KHZ_FREQ_MUL,
    and_ffff_eq_of_lt _ hv, hmask]
  norm_num
  rw [Nat.mod_eq_of_lt (by omega)]
  rw [hmask]

theorem get_fm_value (rest : Nat → Nat) (i bb : Nat) (t : List RegOp)
    (k : Nat) (hk : k < 2 ^ 12) (hbb : ¬(bb = BAND_AM)) :
    (kt0913_ioctl_vidioc_g_frequency transportOk
      ⟨fun r => if r = KT0913_REG_TUNE then
          (KT0913_TUNE_FMTUNE_ON ||| k) &&& 0xFFFF else rest r,
        bb, i, t⟩ 0).1 = Except.ok (k * 800) := by
  have hv : (KT0913_TUNE_FMTUNE_ON ||| k) < 2 ^ 16 := by
    have h1 : (KT0913_TUNE_FMTUNE_ON : Nat) = 2 ^ 15 := by decide
    rw [h1]
    exact Nat.or_lt_two_pow (by norm_num) (by omega)
  have hmask : (KT0913_TUNE_FMTUNE_ON ||| k) &&& KT0913_TUNE_FMCHAN_MASK
      = k := by
    have h1 : (KT0913_TUNE_FMTUNE_ON : Nat) = 2 ^ 15 := by decide
    have h2 : (KT0913_TUNE_FMCHAN_MASK : Nat) = 2 ^ 12 - 1 := by decide
    rw [h1, h2]
    exact lor_two_pow_and_mask _ 12 (by norm_num) hk
  simp only [kt0913_ioctl_vidioc_g_frequency, __kt0913_get_fm_frequency,
    regmap_read, transportOk, khz_to_v4l2_freq, V4L2_KHZ_FREQ_MUL,
    KT0913_FMCHAN_MUL, if_neg hbb, and_ffff_eq_of_lt _ hv, hmask]
  norm_num
  rw [Nat.mod_eq_of_lt (by omega)]
  rw [hmask]
  ring

theorem regmap_update_bits_ok (σ : DevState) (reg mask val : Nat) :
    ∃ σ1, regmap_update_bits transportOk σ reg mask val =
      (Except.ok (), σ1) := by
  simp only [regmap_update_bits, regmap_read, regmap_write, transportOk]
  split
  · exact ⟨_, rfl⟩
  · exact ⟨_, rfl⟩

theorem set_am_fm_band_ok (σ : DevState) (band : Nat) :
    ∃ σ1, __kt0913_set_am_fm_band transportOk σ band =
      (Except.ok (), σ1) := by
  simp only [__kt0913_set_am_fm_band]
  exact regmap_update_bits_ok σ KT0913_REG_AMSYSCFG KT0913_AMSYSCFG_AM_FM_MASK _

/-! Claim theorems. -/

/-- C1: `set_frequency` classifies the requested frequency by range
membership in the fixed priority order AM, then narrow FM, then the campus
FM range (the latter tested only when the extended-band flag is enabled);
a frequency inside the AM range is always classified AM and never as one of
the FM bands, and a frequency matching no enabled range classifies to
nothing. -/
theorem classify_band_priority (campus : Bool) (freq : Nat) :
    (kt0913_bands_rangelow BAND_AM ≤ freq ∧
        freq ≤ kt0913_bands_rangehigh BAND_AM →
      kt0913_classify_band campus freq = some BAND_AM ∧
      kt0913_classify_band campus freq ≠ some BAND_FM ∧
      kt0913_classify_band campus freq ≠ some BAND_FM_CAMUS) ∧
    (¬(kt0913_bands_rangelow BAND_AM ≤ freq ∧
        freq ≤ kt0913_bands_rangehigh BAND_AM) →
      kt0913_bands_rangelow BAND_FM ≤ freq ∧
        freq ≤ kt0913_bands_rangehigh BAND_FM →
      kt0913_classify_band campus freq = some BAND_FM) ∧
    (¬(kt0913_bands_rangelow BAND_AM ≤ freq ∧
        freq ≤ kt0913_bands_rangehigh BAND_AM) →
      ¬(kt0913_bands_rangelow BAND_FM ≤ freq ∧
        freq ≤ kt0913_bands_rangehigh BAND_FM) →
      campus = true →
      kt0913_bands_rangelow BAND_FM_CAMUS ≤ freq ∧
        freq ≤ kt0913_bands_rangehigh BAND_FM_CAMUS →
      kt0913_classify_band campus freq = some BAND_FM_CAMUS) ∧
    (¬(kt0913_bands_rangelow BAND_AM ≤ freq ∧
        freq ≤ kt0913_bands_rangehigh BAND_AM) →
      ¬(kt0913_bands_rangelow BAND_FM ≤ freq ∧
        freq ≤ kt0913_bands_rangehigh BAND_FM) →
      (campus = false ∨
        ¬(kt0913_bands_rangelow BAND_FM_CAMUS ≤ freq ∧
          freq ≤ kt0913_bands_rangehigh BAND_FM_CAMUS)) →
      kt0913_classify_band campus freq = none) := by
  simp only [kt0913_classify_band]
  refine ⟨fun ham => ?_, fun hnam hfm => ?_, fun hnam hnfm hc hcam => ?_,
    fun hnam hnfm hno => ?_⟩
  · rw [if_pos ham]
    exact ⟨rfl, by decide, by decide⟩
  · rw [if_neg hnam, if_pos hfm]
  · rw [if_neg hnam, if_neg hnfm, if_pos ⟨hc, hcam.1, hcam.2⟩]
  · have h3 : ¬(campus = true ∧
        kt0913_bands_rangelow BAND_FM_CAMUS ≤ freq ∧
        freq ≤ kt0913_bands_rangehigh BAND_FM_CAMUS) := by
      rcases hno with hc | hncam
      · subst hc; simp
      · exact fun h => hncam h.2
    rw [if_neg hnam, if_neg hnfm, if_neg h3]

/-- C1 witness: concrete classifications; 1000 kHz lands in AM even with
the campus flag on, 90 MHz in FM, 40 MHz in campus FM only when enabled. -/
theorem classify_band_priority_witness :
    kt0913_classify_band true (1000 * 16) = some BAND_AM ∧
    kt0913_classify_band false (90000 * 16) = some BAND_FM ∧
    kt0913_classify_band true (40000 * 16) = some BAND_FM_CAMUS ∧
    kt0913_classify_band false (40000 * 16) = none := by
  refine ⟨((classify_band_priority true (1000 * 16)).1 (by decide)).1,
    (classify_band_priority false (90000 * 16)).2.1 (by decide) (by decide),
    (classify_band_priority true (40000 * 16)).2.2.1 (by decide) (by decide)
      rfl (by decide),
    (classify_band_priority false (40000 * 16)).2.2.2 (by decide) (by decide)
      (Or.inl rfl)⟩

/-- C2: `set_frequency(0)` fails with `-EINVAL`, and `set_frequency` of a
frequency inside no enabled band range fails with `-EINVAL` (the code uses
the same errno for the spec's `InvalidArgument` and `OutOfRange`); in both
cases the returned state is exactly the input state: no bus operation is
issued and registers and the in-memory band are untouched. -/
theorem set_frequency_rejects_without_register_access
    (campus : Bool) (tr : Transport) (σ : DevState) (freq : Nat)
    (hfreq : kt0913_classify_band campus freq = none) :
    kt0913_ioctl_vidioc_s_frequency campus tr σ 0 V4L2_TUNER_RADIO 0 =
      (Except.error (-EINVAL), σ) ∧
    kt0913_ioctl_vidioc_s_frequency campus tr σ 0 V4L2_TUNER_RADIO freq =
      (Except.error (-EINVAL), σ) := by
  constructor
  · simp [kt0913_ioctl_vidioc_s_frequency, V4L2_TUNER_RADIO]
  · rcases eq_or_ne freq 0 with rfl | hne
    · simp [kt0913_ioctl_vidioc_s_frequency, V4L2_TUNER_RADIO]
    · simp [kt0913_ioctl_vidioc_s_frequency, V4L2_TUNER_RADIO, hne, hfreq]

/-- C2 witness: frequency 100 (6.25 kHz) is below every band range. -/
theorem set_frequency_rejects_witness :
    kt0913_ioctl_vidioc_s_frequency false transportOk initialState 0
        V4L2_TUNER_RADIO 0 = (Except.error (-EINVAL), initialState) ∧
    kt0913_ioctl_vidioc_s_frequency false transportOk initialState 0
        V4L2_TUNER_RADIO 100 = (Except.error (-EINVAL), initialState) :=
  set_frequency_rejects_without_register_access false transportOk
    initialState 100 (by decide)

/-- C6: the volume register-field mapping `field(db) = db/2 + 31` (C
truncating division) satisfies `field(-60) = 1` and `field(0) = 31`, and is
monotone on the control's domain `{-60, -58, ..., 0}`. -/
theorem volume_field_monotone :
    kt0913_volume_field (-60) = 1 ∧ kt0913_volume_field 0 = 31 ∧
    ∀ db1 db2 : Int, -60 ≤ db1 → db1 ≤ 0 → -60 ≤ db2 → db2 ≤ 0 →
      2 ∣ db1 → 2 ∣ db2 → db1 < db2 →
      kt0913_volume_field db1 ≤ kt0913_volume_field db2 := by
  refine ⟨by decide, by decide, ?_⟩
  rintro db1 db2 _ _ _ _ ⟨k1, rfl⟩ ⟨k2, rfl⟩ hlt
  simp only [kt0913_volume_field]
  have h1 : Int.tdiv (2 * k1) 2 = k1 :=
    Int.mul_tdiv_cancel_left k1 (by norm_num)
  have h2 : Int.tdiv (2 * k2) 2 = k2 :=
    Int.mul_tdiv_cancel_left k2 (by norm_num)
  rw [h1, h2]
  omega

/-- C6 witness: monotonicity applied at -60 < -2, and the endpoint values. -/
theorem volume_field_monotone_witness :
    kt0913_volume_field (-60) ≤ kt0913_volume_field (-2) :=
  volume_field_monotone.2.2 (-60) (-2) (by decide) (by decide) (by decide)
    (by decide) ⟨-30, by decide⟩ ⟨-1, by decide⟩ (by decide)

/-- C8 counterexample: raw RSSI 15 rescales to `15 * 65535 / 31 = 31710`
(truncating), not 31705, on both the FM and the AM path. -/
theorem rssi_raw15_counterexample :
    kt0913_fm_rssi_of (15 <<< 3) = 31710 ∧
    kt0913_am_rssi_of (15 <<< 8) = 31710 ∧
    ¬(kt0913_fm_rssi_of (15 <<< 3) = 31705) ∧
    ¬(kt0913_am_rssi_of (15 <<< 8) = 31705) := by decide

/-- C8 (amended): both RSSI decoders extract the 5-bit raw field (FM: mask
0xF8 shifted by 3, i.e. `(s / 8) % 32`; AM: mask 0x1F00 shifted by 8, i.e.
`(s / 256) % 32`) and rescale it by `raw * 65535 / 31` with truncating
integer arithmetic, so raw 0 maps to 0, raw 31 to 65535 and raw 15 to
31710; the monadic getters return exactly this decode of the freshly read
status register. -/
theorem rssi_scaling (s : Nat) (σ : DevState) :
    kt0913_fm_rssi_of s = (((s / 8) % 32) * 65535 / 31 : Nat) ∧
    kt0913_am_rssi_of s = (((s / 256) % 32) * 65535 / 31 : Nat) ∧
    kt0913_fm_rssi_of 0 = 0 ∧ kt0913_fm_rssi_of 0xF8 = 65535 ∧
    kt0913_fm_rssi_of (15 <<< 3) = 31710 ∧
    kt0913_am_rssi_of 0 = 0 ∧ kt0913_am_rssi_of 0x1F00 = 65535 ∧
    kt0913_am_rssi_of (15 <<< 8) = 31710 ∧
    (__kt0913_get_fm_rssi transportOk σ).1 =
      Except.ok (kt0913_fm_rssi_of (σ.regs KT0913_REG_STATUSA)) ∧
    (__kt0913_get_am_rssi transportOk σ).1 =
      Except.ok (kt0913_am_rssi_of (σ.regs KT0913_REG_AMSTATUSA)) := by
  have hfm : kt0913_fm_rssi_of s = (((s / 8) % 32) * 65535 / 31 : Nat) := by
    have hm : (KT0913_STATUSA_FMRSSI_MASK : Nat) = (2 ^ 5 - 1) <<< 3 := by
      decide
    simp only [kt0913_fm_rssi_of, KT0913_STATUSA_FMRSSI_SHIFT]
    rw [hm, mask_shift_eq_mod]
    have hdiv : (((2 ^ 5 - 1) <<< 3) >>> 3 : Nat) = 31 := by decide
    rw [hdiv, Nat.shiftRight_eq_div_pow]
    have hcast : ((s / 2 ^ 3 % 2 ^ 5 : Nat) : Int) * 65535 =
        ((s / 2 ^ 3 % 2 ^ 5 * 65535 : Nat) : Int) := by push_cast; ring
    rw [hcast, int_tdiv_natCast]
    norm_num
  have ham : kt0913_am_rssi_of s = (((s / 256) % 32) * 65535 / 31 : Nat)
      := by
    have hm : (KT0913_AMSTATUSA_AMRSSI_MASK : Nat) = (2 ^ 5 - 1) <<< 8 := by
      decide
    simp only [kt0913_am_rssi_of, KT0913_AMSTATUSA_AMRSSI_SHIFT]
    rw [hm, mask_shift_eq_mod]
    have hdiv : (((2 ^ 5 - 1) <<< 8) >>> 8 : Nat) = 31 := by decide
    rw [hdiv, Nat.shiftRight_eq_div_pow]
    have hcast : ((s / 2 ^ 8 % 2 ^ 5 : Nat) : Int) * 65535 =
        ((s / 2 ^ 8 % 2 ^ 5 * 65535 : Nat) : Int) := by push_cast; ring
    rw [hcast, int_tdiv_natCast]
    norm_num
  exact ⟨hfm, ham, by decide, by decide, by decide, by decide, by decide,
    by decide, rfl, rfl⟩

/-- C4: from the default post-init FM state, `set_frequency(1000*16)`
succeeds, switches the AM/FM mode bit of AMSYSCFG to AM, writes AMCHAN with
`0x8000 ||| 1000`, and a following `get_frequency()` returns `1000*16`. -/
theorem tune_am_1000_scenario :
    (__kt0913_init false 0 0 transportOk initialState).2.band = BAND_FM ∧
    (kt0913_ioctl_vidioc_s_frequency false transportOk
        (__kt0913_init false 0 0 transportOk initialState).2 0
        V4L2_TUNER_RADIO (1000 * 16)).1 = Except.ok () ∧
    (kt0913_ioctl_vidioc_s_frequency false transportOk
        (__kt0913_init false 0 0 transportOk initialState).2 0
        V4L2_TUNER_RADIO (1000 * 16)).2.band = BAND_AM ∧
    (kt0913_ioctl_vidioc_s_frequency false transportOk
        (__kt0913_init false 0 0 transportOk initialState).2 0
        V4L2_TUNER_RADIO (1000 * 16)).2.regs KT0913_REG_AMSYSCFG &&&
      KT0913_AMSYSCFG_AM_FM_MASK = KT0913_AMSYSCFG_AM_FM_AM ∧
    (kt0913_ioctl_vidioc_s_frequency false transportOk
        (__kt0913_init false 0 0 transportOk initialState).2 0
        V4L2_TUNER_RADIO (1000 * 16)).2.regs KT0913_REG_AMCHAN =
      (0x8000 ||| 1000) ∧
    RegOp.wr KT0913_REG_AMCHAN (0x8000 ||| 1000) ∈
      (kt0913_ioctl_vidioc_s_frequency false transportOk
        (__kt0913_init false 0 0 transportOk initialState).2 0
        V4L2_TUNER_RADIO (1000 * 16)).2.trace ∧
    (kt0913_ioctl_vidioc_g_frequency transportOk
      (kt0913_ioctl_vidioc_s_frequency false transportOk
        (__kt0913_init false 0 0 transportOk initialState).2 0
        V4L2_TUNER_RADIO (1000 * 16)).2 0).1 = Except.ok (1000 * 16) := by
  decide

/-- C7 counterexample: `set_volume(4)` — outside the declared -60..0 range —
does not fail: the control dispatch succeeds and issues a bus write of the
RXCFG volume field (the driver performs no range check of its own). -/
theorem set_volume_no_range_check_counterexample :
    (kt0913_s_ctrl transportOk initialState V4L2_CID_AUDIO_VOLUME 4).1 =
      Except.ok () ∧
    (kt0913_s_ctrl transportOk initialState V4L2_CID_AUDIO_VOLUME 4).2.trace
      = [RegOp.rd KT0913_REG_RXCFG, RegOp.wr KT0913_REG_RXCFG 1] := by
  decide

/-- C7 (amended): `__kt0913_set_volume` performs no range validation of its
own: for every input — in range or not — the control dispatch forwards to
the masked RXCFG update with field value `db/2 + 31` (taken through 32-bit
two's complement), and the call succeeds whenever the transport does; range
enforcement is delegated to the -60..0 (step 2) bounds declared to the
external control framework at control registration. -/
theorem set_volume_unchecked_mapping (val : Int) (tr : Transport)
    (σ : DevState) :
    kt0913_s_ctrl tr σ V4L2_CID_AUDIO_VOLUME val =
      regmap_update_bits tr σ KT0913_REG_RXCFG KT0913_RXCFGA_VOLUME_MASK
        ((kt0913_volume_field val % 2 ^ 32).toNat) ∧
    (kt0913_s_ctrl transportOk σ V4L2_CID_AUDIO_VOLUME val).1 =
      Except.ok () := by
  have heq : ∀ tr2 : Transport,
      kt0913_s_ctrl tr2 σ V4L2_CID_AUDIO_VOLUME val =
        regmap_update_bits tr2 σ KT0913_REG_RXCFG KT0913_RXCFGA_VOLUME_MASK
          ((kt0913_volume_field val % 2 ^ 32).toNat) := by
    intro tr2
    simp [kt0913_s_ctrl, __kt0913_set_volume, V4L2_CID_AUDIO_VOLUME,
      V4L2_CID_AUDIO_MUTE, V4L2_CID_GAIN, V4L2_CID_TUNE_DEEMPHASIS]
  refine ⟨heq tr, ?_⟩
  rw [heq transportOk]
  simp only [regmap_update_bits, regmap_read, regmap_write, transportOk]
  split <;> rfl

/-- C9: initialization (campus enabled, anti-pop 1, refclk 2) issues, in
strict order, the literal default-table writes, then the anti-pop update,
then the reference-clock update, then the campus-band enable, then mute on
(its trace is exactly `kt0913_init_expected_trace`); and when the transport
fails at any of the 22 bus operations, init surfaces that error and its
trace is exactly the prefix of the successful trace ending at the failing
operation — no further bus access is attempted. -/
theorem init_sequence_order_and_abort :
    (__kt0913_init true 1 2 transportOk initialState).1 = Except.ok () ∧
    (__kt0913_init true 1 2 transportOk initialState).2.trace =
      kt0913_init_expected_trace ∧
    ∀ n : Fin 22,
      (__kt0913_init true 1 2 (failAt n (-5)) initialState).1 =
        Except.error (-5) ∧
      (__kt0913_init true 1 2 (failAt n (-5)) initialState).2.trace =
        kt0913_init_expected_trace.take (n + 1) := by
  decide

/-- C5: for every requested v4l2 frequency inside a band range,
`set_frequency` succeeds and a following `get_frequency` returns the input
truncated down (never rounded) to the band's step granularity — 16 v4l2
units (1 kHz) on AM, 800 v4l2 units (50 kHz) on FM; when the input is
aligned to the step, the round trip is the identity. -/
theorem frequency_round_trip (campus : Bool) (regs0 : Nat → Nat)
    (band0 freq b : Nat)
    (hb : kt0913_classify_band campus freq = some b) :
    ∃ σ1,
      kt0913_ioctl_vidioc_s_frequency campus transportOk
        ⟨regs0, band0, 0, []⟩ 0 V4L2_TUNER_RADIO freq = (Except.ok (), σ1) ∧
      (kt0913_ioctl_vidioc_g_frequency transportOk σ1 0).1 =
        Except.ok (freq / (if b = BAND_AM then 16 else 800) *
          (if b = BAND_AM then 16 else 800)) ∧
      ((if b = BAND_AM then 16 else 800) ∣ freq →
        (kt0913_ioctl_vidioc_g_frequency transportOk σ1 0).1 =
          Except.ok freq) := by
  have htuner : ¬((0 : Nat) ≠ 0 ∨ V4L2_TUNER_RADIO ≠ V4L2_TUNER_RADIO) := by
    simp
  rcases classify_band_cases campus freq b hb with
    ⟨hbv, hlo, hhi⟩ | ⟨hbv, hlo, hhi⟩
  · subst hbv
    have hfreq0 : ¬(freq = 0) := by omega
    have hk : freq / 16 < 2 ^ 11 := by omega
    have hdq : ∀ (h : 16 ∣ freq), freq / 16 * 16 = freq :=
      fun h => Nat.div_mul_cancel h
    simp only [kt0913_ioctl_vidioc_s_frequency, if_neg htuner, if_neg hfreq0,
      hb, v4l2_freq_to_khz, V4L2_KHZ_FREQ_MUL, __kt0913_set_am_frequency,
      regmap_write, transportOk]
    by_cases hband : band0 = BAND_AM
    · subst hband
      simp only [ne_eq, not_true_eq_false, if_false, if_true]
      refine ⟨_, rfl, get_am_value _ _ _ _ hk, fun hdvd => ?_⟩
      rw [get_am_value _ _ _ _ hk, hdq hdvd]
    · obtain ⟨σm, hσm⟩ := set_am_fm_band_ok ⟨regs0, band0, 0, []⟩ BAND_AM
      rw [if_pos hband, hσm]
      refine ⟨_, rfl, get_am_value _ _ _ _ hk, fun hdvd => ?_⟩
      rw [get_am_value _ _ _ _ hk, hdq hdvd]
  · have hbne : ¬(b = BAND_AM) := by
      rcases hbv with rfl | rfl <;> decide
    have hfreq0 : ¬(freq = 0) := by omega
    have hk : freq / 16 / 50 < 2 ^ 12 := by omega
    have hdd : freq / 16 / 50 = freq / 800 := by
      rw [Nat.div_div_eq_div_mul]
    have hdq : ∀ (h : 800 ∣ freq), freq / 800 * 800 = freq :=
      fun h => Nat.div_mul_cancel h
    simp only [kt0913_ioctl_vidioc_s_frequency, if_neg htuner, if_neg hfreq0,
      hb, v4l2_freq_to_khz, V4L2_KHZ_FREQ_MUL, __kt0913_set_fm_frequency,
      KT0913_FMCHAN_MUL, regmap_write, transportOk]
    by_cases hband : band0 = b
    · subst hband
      simp only [ne_eq, not_true_eq_false, if_false, if_true, if_neg hbne]
      refine ⟨_, rfl, ?_, fun hdvd => ?_⟩
      · rw [get_fm_value _ _ _ _ _ hk hbne, hdd]
      · rw [get_fm_value _ _ _ _ _ hk hbne, hdd, hdq hdvd]
    · obtain ⟨σm, hσm⟩ := set_am_fm_band_ok ⟨regs0, band0, 0, []⟩ b
      rw [if_pos hband, hσm]
      simp only [if_neg hbne]
      refine ⟨_, rfl, ?_, fun hdvd => ?_⟩
      · rw [get_fm_value _ _ _ _ _ hk hbne, hdd]
      · rw [get_fm_value _ _ _ _ _ hk hbne, hdd, hdq hdvd]

theorem regmap_update_bits_trace (σ : DevState) (reg mask val : Nat) :
    ∃ σ1, regmap_update_bits transportOk σ reg mask val =
        (Except.ok (), σ1) ∧
      (σ1.trace = σ.trace ++ [RegOp.rd reg] ∨
       ∃ w, σ1.trace = σ.trace ++ [RegOp.rd reg, RegOp.wr reg w]) := by
  simp only [regmap_update_bits, regmap_read, regmap_write, transportOk]
  split
  · exact ⟨_, rfl, Or.inl rfl⟩
  · refine ⟨_, rfl, Or.inr
      ⟨(σ.regs reg &&& (0xFFFF ^^^ mask) ||| val &&& mask) &&& 0xFFFF, ?_⟩⟩
    simp

theorem set_am_fm_band_trace (σ : DevState) (band : Nat) :
    ∃ σ1, __kt0913_set_am_fm_band transportOk σ band = (Except.ok (), σ1) ∧
      (σ1.trace = σ.trace ++ [RegOp.rd KT0913_REG_AMSYSCFG] ∨
       ∃ w, σ1.trace = σ.trace ++
         [RegOp.rd KT0913_REG_AMSYSCFG, RegOp.wr KT0913_REG_AMSYSCFG w]) := by
  simp only [__kt0913_set_am_fm_band]
  exact regmap_update_bits_trace σ KT0913_REG_AMSYSCFG
    KT0913_AMSYSCFG_AM_FM_MASK _

/-- C3: during `set_frequency`, the AMSYSCFG mode-config register is
touched only when the classified band differs from the current band state
(first conjunct: same band means no AMSYSCFG access at all; second: a mode
write in the trace implies the bands differed), and the issued trace splits
into a prefix with no tune/channel write followed by a suffix with no mode
write — so every mode write precedes every tune/channel write. -/
theorem set_frequency_mode_write_gating_and_order (campus : Bool)
    (regs0 : Nat → Nat) (band0 freq b : Nat)
    (hb : kt0913_classify_band campus freq = some b) :
    ((band0 = b) →
      ∀ op ∈ (kt0913_ioctl_vidioc_s_frequency campus transportOk
        ⟨regs0, band0, 0, []⟩ 0 V4L2_TUNER_RADIO freq).2.trace,
        RegOp.reg op ≠ KT0913_REG_AMSYSCFG) ∧
    (∀ op ∈ (kt0913_ioctl_vidioc_s_frequency campus transportOk
        ⟨regs0, band0, 0, []⟩ 0 V4L2_TUNER_RADIO freq).2.trace,
      isModeWrite op = true → ¬(band0 = b)) ∧
    (∃ t1 t2,
      (kt0913_ioctl_vidioc_s_frequency campus transportOk
        ⟨regs0, band0, 0, []⟩ 0 V4L2_TUNER_RADIO freq).2.trace = t1 ++ t2 ∧
      (∀ op ∈ t1, isChanWrite op = false) ∧
      (∀ op ∈ t2, isModeWrite op = false)) := by
  have htuner : ¬((0 : Nat) ≠ 0 ∨ V4L2_TUNER_RADIO ≠ V4L2_TUNER_RADIO) := by
    simp
  have hfreq0 : ¬(freq = 0) := by
    rcases classify_band_cases campus freq b hb with ⟨_, h1, _⟩ | ⟨_, h1, _⟩
      <;> omega
  simp only [kt0913_ioctl_vidioc_s_frequency, if_neg htuner, if_neg hfreq0,
    hb, v4l2_freq_to_khz, V4L2_KHZ_FREQ_MUL, __kt0913_set_am_frequency,
    __kt0913_set_fm_frequency, regmap_write, transportOk, KT0913_FMCHAN_MUL]
  by_cases hband : band0 = b
  · rw [if_neg (by simp [hband])]
    by_cases hAM : b = BAND_AM
    · subst hband; subst hAM
      simp only [reduceIte, List.nil_append]
      refine ⟨fun _ op hop => ?_, fun op hop hmw => ?_, ?_⟩
      · simp only [List.mem_singleton] at hop
        subst hop
        simp [RegOp.reg, KT0913_REG_AMCHAN, KT0913_REG_AMSYSCFG]
      · simp only [List.mem_singleton] at hop
        subst hop
        simp [isModeWrite, KT0913_REG_AMCHAN, KT0913_REG_AMSYSCFG] at hmw
      · refine ⟨[], _, rfl, by simp, ?_⟩
        intro op hop
        simp only [List.mem_singleton] at hop
        subst hop
        simp [isModeWrite, KT0913_REG_AMCHAN, KT0913_REG_AMSYSCFG]
    · subst hband
      simp only [reduceIte, List.nil_append]
      rw [if_neg hAM]
      refine ⟨fun _ op hop => ?_, fun op hop hmw => ?_, ?_⟩
      · simp only [List.mem_singleton] at hop
        subst hop
        simp [RegOp.reg, KT0913_REG_TUNE, KT0913_REG_AMSYSCFG]
      · simp only [List.mem_singleton] at hop
        subst hop
        simp [isModeWrite, KT0913_REG_TUNE, KT0913_REG_AMSYSCFG] at hmw
      · refine ⟨[], _, rfl, by simp, ?_⟩
        intro op hop
        simp only [List.mem_singleton] at hop
        subst hop
        simp [isModeWrite, KT0913_REG_TUNE, KT0913_REG_AMSYSCFG]
  · rw [if_pos hband]
    obtain ⟨σm, hσm, htr⟩ := set_am_fm_band_trace ⟨regs0, band0, 0, []⟩ b
    rw [hσm]
    simp only [List.nil_append] at htr
    by_cases hAM : b = BAND_AM
    · subst hAM
      simp only [reduceIte]
      rcases htr with htr | ⟨w, htr⟩ <;> rw [htr] <;>
        simp only [List.nil_append, List.cons_append] <;>
        refine ⟨fun h => absurd h hband, fun _ _ _ => hband, ?_⟩
      · refine ⟨_, _, (List.take_append_drop 1 _).symm, ?_, ?_⟩
        · intro op hop
          simp at hop
          subst hop
          simp [isChanWrite, KT0913_REG_AMSYSCFG, KT0913_REG_TUNE,
            KT0913_REG_AMCHAN]
        · intro op hop
          simp at hop
          subst hop
          simp [isModeWrite, KT0913_REG_AMCHAN, KT0913_REG_AMSYSCFG]
      · refine ⟨_, _, (List.take_append_drop 2 _).symm, ?_, ?_⟩
        · intro op hop
          simp at hop
          rcases hop with rfl | rfl <;>
            simp [isChanWrite, KT0913_REG_AMSYSCFG, KT0913_REG_TUNE,
              KT0913_REG_AMCHAN]
        · intro op hop
          simp at hop
          subst hop
          simp [isModeWrite, KT0913_REG_AMCHAN, KT0913_REG_AMSYSCFG]
    · simp only [reduceIte]
      rw [if_neg hAM]
      rcases htr with htr | ⟨w, htr⟩ <;> rw [htr] <;>
        simp only [List.nil_append, List.cons_append] <;>
        refine ⟨fun h => absurd h hband, fun _ _ _ => hband, ?_⟩
      · refine ⟨_, _, (List.take_append_drop 1 _).symm, ?_, ?_⟩
        · intro op hop
          simp at hop
          subst hop
          simp [isChanWrite, KT0913_REG_AMSYSCFG, KT0913_REG_TUNE,
            KT0913_REG_AMCHAN]
        · intro op hop
          simp at hop
          subst hop
          simp [isModeWrite, KT0913_REG_TUNE, KT0913_REG_AMSYSCFG]
      · refine ⟨_, _, (List.take_append_drop 2 _).symm, ?_, ?_⟩
        · intro op hop
          simp at hop
          rcases hop with rfl | rfl <;>
            simp [isChanWrite, KT0913_REG_AMSYSCFG, KT0913_REG_TUNE,
              KT0913_REG_AMCHAN]
        · intro op hop
          simp at hop
          subst hop
          simp [isModeWrite, KT0913_REG_TUNE, KT0913_REG_AMSYSCFG]

/-- C10: when the band changes and the mode write to AMSYSCFG fails with
a transport error, `set_frequency` returns that error, the register file
and the in-memory band state are exactly as before the call, and the trace
shows only the AMSYSCFG read and the failed AMSYSCFG write — the frequency
write was never attempted. -/
theorem mode_write_failure_aborts (campus : Bool) (regs0 : Nat → Nat)
    (band0 freq b : Nat) (e : Errno)
    (hb : kt0913_classify_band campus freq = some b)
    (hband : ¬(band0 = b))
    (hbit : regs0 KT0913_REG_AMSYSCFG &&& KT0913_AMSYSCFG_AM_FM_MASK ≠
      (if b = BAND_AM then KT0913_AMSYSCFG_AM_FM_AM
       else KT0913_AMSYSCFG_AM_FM_FM)) :
    ∃ v, kt0913_ioctl_vidioc_s_frequency campus (failAt 1 e)
        ⟨regs0, band0, 0, []⟩ 0 V4L2_TUNER_RADIO freq =
      (Except.error e,
        ⟨regs0, band0, 2,
          [RegOp.rd KT0913_REG_AMSYSCFG, RegOp.wr KT0913_REG_AMSYSCFG v]⟩)
      := by
  have htuner : ¬((0 : Nat) ≠ 0 ∨ V4L2_TUNER_RADIO ≠ V4L2_TUNER_RADIO) := by
    simp
  have hfreq0 : ¬(freq = 0) := by
    rcases classify_band_cases campus freq b hb with ⟨_, h1, _⟩ | ⟨_, h1, _⟩
      <;> omega
  simp only [KT0913_AMSYSCFG_AM_FM_MASK, KT0913_AMSYSCFG_AM_FM_AM,
    KT0913_AMSYSCFG_AM_FM_FM] at hbit
  have htm : (if b = BAND_AM then (0x8000 : Nat) else 0) &&& 0x8000 =
      (if b = BAND_AM then (0x8000 : Nat) else 0) := by
    by_cases hAM : b = BAND_AM <;> simp [hAM]
  have hto : ¬(regs0 KT0913_REG_AMSYSCFG &&& (0xFFFF ^^^ 0x8000) |||
      (if b = BAND_AM then (0x8000 : Nat) else 0) &&& 0x8000 =
      regs0 KT0913_REG_AMSYSCFG) := by
    intro hcontra
    apply hbit
    have h1 := update_and_mask_top (regs0 KT0913_REG_AMSYSCFG)
      (if b = BAND_AM then (0x8000 : Nat) else 0)
    rw [hcontra] at h1
    rw [h1, htm]
  simp only [kt0913_ioctl_vidioc_s_frequency, if_neg htuner, if_neg hfreq0,
    hb, if_pos hband, __kt0913_set_am_fm_band, regmap_update_bits,
    regmap_read, regmap_write, failAt, KT0913_AMSYSCFG_AM_FM_MASK,
    KT0913_AMSYSCFG_AM_FM_AM, KT0913_AMSYSCFG_AM_FM_FM, reduceIte,
    Nat.reduceEqDiff]
  rw [if_neg hto]
  simp only [reduceIte, List.nil_append, List.cons_append]
  exact ⟨_, rfl⟩

/-- C5 witness: round trip at 1000 kHz AM from the FM band state. -/
theorem frequency_round_trip_witness :
    ∃ σ1,
      kt0913_ioctl_vidioc_s_frequency false transportOk
        ⟨fun _ => 0, BAND_FM, 0, []⟩ 0 V4L2_TUNER_RADIO 16000 =
        (Except.ok (), σ1) ∧
      (kt0913_ioctl_vidioc_g_frequency transportOk σ1 0).1 =
        Except.ok (16000 / (if BAND_AM = BAND_AM then 16 else 800) *
          (if BAND_AM = BAND_AM then 16 else 800)) ∧
      ((if BAND_AM = BAND_AM then 16 else 800) ∣ 16000 →
        (kt0913_ioctl_vidioc_g_frequency transportOk σ1 0).1 =
          Except.ok 16000) :=
  frequency_round_trip false (fun _ => 0) BAND_FM 16000 BAND_AM (by decide)

/-- C3 witness: mode-write gating and ordering at 1000 kHz AM from the FM
band state. -/
theorem set_frequency_mode_write_gating_witness :
    ((BAND_FM = BAND_AM) →
      ∀ op ∈ (kt0913_ioctl_vidioc_s_frequency false transportOk
        ⟨fun _ => 0, BAND_FM, 0, []⟩ 0 V4L2_TUNER_RADIO 16000).2.trace,
        RegOp.reg op ≠ KT0913_REG_AMSYSCFG) ∧
    (∀ op ∈ (kt0913_ioctl_vidioc_s_frequency false transportOk
        ⟨fun _ => 0, BAND_FM, 0, []⟩ 0 V4L2_TUNER_RADIO 16000).2.trace,
      isModeWrite op = true → ¬(BAND_FM = BAND_AM)) ∧
    (∃ t1 t2,
      (kt0913_ioctl_vidioc_s_frequency false transportOk
        ⟨fun _ => 0, BAND_FM, 0, []⟩ 0 V4L2_TUNER_RADIO 16000).2.trace =
        t1 ++ t2 ∧
      (∀ op ∈ t1, isChanWrite op = false) ∧
      (∀ op ∈ t2, isModeWrite op = false)) :=
  set_frequency_mode_write_gating_and_order false (fun _ => 0) BAND_FM
    16000 BAND_AM (by decide)

/-- C10 witness: transport failure of the AM/FM mode write while switching
from FM to AM at 1000 kHz. -/
theorem mode_write_failure_aborts_witness :
    ∃ v, kt0913_ioctl_vidioc_s_frequency false (failAt 1 (-5))
        ⟨fun _ => 0, BAND_FM, 0, []⟩ 0 V4L2_TUNER_RADIO 16000 =
      (Except.error (-5),
        ⟨fun _ => 0, BAND_FM, 2,
          [RegOp.rd KT0913_REG_AMSYSCFG, RegOp.wr KT0913_REG_AMSYSCFG v]⟩) :=
  mode_write_failure_aborts false (fun _ => 0) BAND_FM 16000 BAND_AM (-5)
    (by decide) (by decide) (by decide)

end KT0913
